import Mathlib

/-!
Verification development for the A7s-Prime-Hash-WebTool repository.

The development shallowly embeds the classical-cipher toolbox page
(`src/pages/Classical Cipher.py`) and the PKCS7 padding functions of the
padding page (`src/pages/Padding & Unpadding Text.py`), and proves the
stated properties about them.

The cipher provider (the `pycipher` library) is an external dependency whose
code is not part of the repository; where its behaviour is needed it is
modelled from the specification and from the page's own parameter
documentation, and each such definition says so in its doc comment.
-/

namespace A7sPrime

/-- Semantic values flowing through the parameter pipeline: the Python values
this page manipulates (null, integers, strings, and the integer lists produced
by parsing literals such as "[5, 4, 7, 9]"). -/
inductive PyVal where
  | null
  | int (n : Int)
  | str (s : String)
  | list (l : List Int)
deriving DecidableEq, Repr

/-- Numeric value of a list of decimal digit characters. -/
def digitsToNat (cs : List Char) : Nat :=
  cs.foldl (fun n c => 10 * n + (c.toNat - 48)) 0

/-- Strip leading and trailing whitespace from a character list. -/
def trimChars (cs : List Char) : List Char :=
  ((cs.dropWhile Char.isWhitespace).reverse.dropWhile Char.isWhitespace).reverse

/-- Parse an optionally negated decimal integer literal from a trimmed
character list; fails on anything else. -/
def parseIntChars : List Char → Option Int
  | [] => Option.none
  | '-' :: rest =>
      if rest ≠ [] ∧ rest.all Char.isDigit then some (-(digitsToNat rest : Int))
      else Option.none
  | cs =>
      if cs.all Char.isDigit then some ((digitsToNat cs : Int))
      else Option.none

/-- Parse an integer literal, ignoring surrounding whitespace. -/
def parseIntLit (cs : List Char) : Option Int :=
  parseIntChars (trimChars cs)

/-- Split a character list on commas (model of `str.split(",")` applied to the
inside of a bracketed list literal). -/
def splitComma : List Char → List (List Char)
  | [] => [[]]
  | c :: cs =>
      let rest := splitComma cs
      if c = ',' then [] :: rest
      else
        match rest with
        | [] => [[c]]
        | g :: gs => (c :: g) :: gs

/-- Modelled from the spec: `ast.literal_eval` (Python standard library, not
part of the repository), restricted to the literal forms this page actually
feeds it — integer literals and bracketed lists of integer literals.  Any
other input fails (returns `Option.none`), matching the library's raising
behaviour which the caller turns into a string fallback. -/
def litEval (s : String) : Option PyVal :=
  match trimChars s.data with
  | '[' :: more =>
      match more.reverse with
      | ']' :: innerRev =>
          let inner := innerRev.reverse
          if trimChars inner = [] then some (.list [])
          else
            match (splitComma inner).mapM parseIntLit with
            | some ns => some (.list ns)
            | Option.none => Option.none
      | _ => Option.none
  | t => (parseIntChars t).map PyVal.int

/-- Embedding of `parse_param` (`src/pages/Classical Cipher.py`, lines 30-36):
the membership test `val in ["None", None, ""]` maps the literal string
"None", an actual null and the empty string to null; otherwise
`ast.literal_eval` is attempted and any failure (including a non-string
argument) falls back to returning the value unchanged. -/
def parse_param (val : PyVal) : PyVal :=
  if val = .str "None" ∨ val = .null ∨ val = .str "" then .null
  else
    match val with
    | .str s => (litEval s).getD (.str s)
    | v => v

/-- Embedding of the `cipher_params` registry
(`src/pages/Classical Cipher.py`, lines 12-28), entry for entry. -/
def cipher_params : List (String × List (String × PyVal)) :=
  [("Atbash", []),
   ("SimpleSubstitution", [("key", .str "AJPCZWRLFBDKOTYUQGENHXMIVS")]),
   ("Caesar", [("key", .int 13)]),
   ("Affine", [("a", .int 5), ("b", .int 9)]),
   ("Autokey", [("key", .str "FORTIFICATION")]),
   ("Beaufort", [("key", .str "FORTIFICATION")]),
   ("Bifid", [("key", .str "phqgmeaylnofdxkrcvszwbuti"), ("period", .int 5)]),
   ("ColTrans", [("keyword", .str "GERMAN")]),
   ("Gronsfeld", [("key", .str "[5, 4, 7, 9]")]),
   ("Foursquare", [("key1", .str "zgptfoihmuwdrcnykeqaxvsbl"),
                   ("key2", .str "mfnbdcrhsaxyogvituewlqzkp")]),
   ("PolybiusSquare", [("key", .str "phqgiumeaylnofdxkrcvstzwb"), ("size", .int 5)]),
   ("Playfair", [("key", .str "ABCDEFGHIKLMNOPQRSTUVWXYZ")]),
   ("Vigenere", [("key", .str "fortification")]),
   ("Rot13", []),
   ("Railfence", [("key", .int 5)])]

/-- Parameter set the registry records for a cipher name
(`cipher_params[cipher_name]` in the source). -/
def lookupCipher (name : String) : Option (List (String × PyVal)) :=
  (cipher_params.find? (fun e => e.1 = name)).map (fun e => e.2)

/-- Embedding of `build_param_ui` (`src/pages/Classical Cipher.py`,
lines 38-54): for each declared parameter, in registry order, a checkbox
decides whether the parameter is included at all; when it is, the bound value
is `parse_param` of whatever string stands in that parameter's text field.
`toggles` and `texts` model the state of the checkboxes and text fields. -/
def build_param_ui (params : List (String × PyVal)) (toggles : String → Bool)
    (texts : String → String) : List (String × PyVal) :=
  match params with
  | [] => []
  | p :: rest =>
      if toggles p.1 then
        (p.1, parse_param (.str (texts p.1))) :: build_param_ui rest toggles texts
      else build_param_ui rest toggles texts

/-- Modelled from the spec: a constructed cipher instance of the provider
(the `pycipher` library, not part of the repository).  The shift-family
ciphers named by the specification's scenarios (Caesar, Rot13, Atbash,
Affine, Gronsfeld) are modelled concretely; the remaining provider classes
are carried abstractly by the `generic` variant, about whose transforms
nothing beyond the capability shape is asserted. -/
inductive CipherInstance where
  | caesar (k : Int)
  | rot13
  | atbash
  | affine (a b : Int)
  | gronsfeld (key : List Int)
  | generic (name : String) (params : List (String × PyVal))
deriving DecidableEq, Repr

/-- Modelled from the spec: the accepted constructor parameter names that
`inspect.signature(cipher_class.__init__).parameters` yields for each
provider class.  The provider is not part of the repository, so the names
come from the spec and the page's own parameter documentation (they coincide
with the registry's keys).  `Option.none` models `getattr(pycipher, name)`
raising for an unknown name. -/
def acceptedParamNames (name : String) : Option (List String) :=
  if name = "Atbash" then some []
  else if name = "SimpleSubstitution" then some ["key"]
  else if name = "Caesar" then some ["key"]
  else if name = "Affine" then some ["a", "b"]
  else if name = "Autokey" then some ["key"]
  else if name = "Beaufort" then some ["key"]
  else if name = "Bifid" then some ["key", "period"]
  else if name = "ColTrans" then some ["keyword"]
  else if name = "Gronsfeld" then some ["key"]
  else if name = "Foursquare" then some ["key1", "key2"]
  else if name = "PolybiusSquare" then some ["key", "size"]
  else if name = "Playfair" then some ["key"]
  else if name = "Vigenere" then some ["key"]
  else if name = "Rot13" then some []
  else if name = "Railfence" then some ["key"]
  else Option.none

/-- First value bound to a key in a parameter association list (Python dict
lookup; the UI never produces duplicate keys). -/
def lookupP (k : String) (ps : List (String × PyVal)) : Option PyVal :=
  (ps.find? (fun e => e.1 = k)).map (fun e => e.2)

/-- Modelled from the spec: the provider's Caesar constructor — an integer
shift, default 13; a non-integer key is a construction-time type error. -/
def constructCaesar (ps : List (String × PyVal)) : Except String CipherInstance :=
  match (lookupP "key" ps).getD (.int 13) with
  | .int k => .ok (.caesar k)
  | _ => .error "Caesar key must be an integer"

/-- Modelled from the spec: the provider's Affine constructor — integer
multiplier `a` (default 5) and additive `b` (default 9); construction fails
when the multiplier shares a common factor with the 26-letter alphabet. -/
def constructAffine (ps : List (String × PyVal)) : Except String CipherInstance :=
  match (lookupP "a" ps).getD (.int 5), (lookupP "b" ps).getD (.int 9) with
  | .int a, .int b =>
      if Int.gcd a 26 = 1 then .ok (.affine a b)
      else .error "affine multiplier must be coprime to 26"
  | _, _ => .error "Affine parameters must be integers"

/-- Modelled from the spec: the provider's Gronsfeld constructor — the key is
a nonempty list of integer digits; a wrong-shaped or empty key is a
construction failure. -/
def constructGronsfeld (ps : List (String × PyVal)) : Except String CipherInstance :=
  match lookupP "key" ps with
  | some (.list key) =>
      if key = [] then .error "Gronsfeld key must be nonempty"
      else .ok (.gronsfeld key)
  | _ => .error "Gronsfeld key must be a list of digits"

/-- Modelled from the spec: provider construction, `cipher_class(**kwargs)`,
dispatched on the class name.  Classes the model does not interpret yield a
`generic` instance recording name and parameters. -/
def construct (name : String) (ps : List (String × PyVal)) : Except String CipherInstance :=
  if name = "Caesar" then constructCaesar ps
  else if name = "Rot13" then .ok .rot13
  else if name = "Atbash" then .ok .atbash
  else if name = "Affine" then constructAffine ps
  else if name = "Gronsfeld" then constructGronsfeld ps
  else if name ∈ ["SimpleSubstitution", "Autokey", "Beaufort", "Bifid", "ColTrans",
                  "Foursquare", "PolybiusSquare", "Playfair", "Vigenere", "Railfence"] then
    .ok (.generic name ps)
  else .error "unknown cipher"

/-- Embedding of `safe_cipher_instance` (`src/pages/Classical Cipher.py`,
lines 56-64): resolve the cipher class, keep only the user inputs whose key
is among the accepted constructor parameter names, and attempt construction;
every failure is caught and surfaced as an error value instead of an
exception. -/
def safe_cipher_instance (cipher_name : String) (user_inputs : List (String × PyVal)) :
    Except String CipherInstance :=
  match acceptedParamNames cipher_name with
  | Option.none => .error ("module pycipher has no attribute " ++ cipher_name)
  | some accepted =>
      construct cipher_name (user_inputs.filter (fun kv => accepted.contains kv.1))

/-- Letters of the cipher alphabet, 0 = A … 25 = Z, with mod-26 arithmetic. -/
abbrev Letter := ZMod 26

/-- Modelled from the spec: the Gronsfeld keystream addition — position `i`
is shifted by `key[i % len(key)]`. -/
def gronEnc (key : List Int) : Nat → List Letter → List Letter
  | _, [] => []
  | i, c :: cs => (c + ((key.getD (i % key.length) 0 : Int) : Letter)) :: gronEnc key (i + 1) cs

/-- Modelled from the spec: the Gronsfeld keystream subtraction. -/
def gronDec (key : List Int) : Nat → List Letter → List Letter
  | _, [] => []
  | i, c :: cs => (c - ((key.getD (i % key.length) 0 : Int) : Letter)) :: gronDec key (i + 1) cs

/-- Modelled from the spec: the provider's `encipher` on letters.  Caesar
shifts by the key, Rot13 by 13, Atbash reverses the alphabet, Affine maps
`c` to `a*c + b`, Gronsfeld adds its keystream.  The uninterpreted `generic`
instances carry only the capability shape the spec gives them. -/
def encL : CipherInstance → List Letter → List Letter
  | .caesar k, x => x.map (fun c => c + (k : Letter))
  | .rot13, x => x.map (fun c => c + 13)
  | .atbash, x => x.map (fun c => 25 - c)
  | .affine a b, x => x.map (fun c => (a : Letter) * c + (b : Letter))
  | .gronsfeld key, x => gronEnc key 0 x
  | .generic _ _, x => x

/-- Modelled from the spec: the provider's `decipher` on letters, the inverse
transform of `encL`; Affine uses the mod-26 inverse of the multiplier. -/
def decL : CipherInstance → List Letter → List Letter
  | .caesar k, x => x.map (fun c => c - (k : Letter))
  | .rot13, x => x.map (fun c => c - 13)
  | .atbash, x => x.map (fun c => 25 - c)
  | .affine a b, x => x.map (fun c => (a : Letter)⁻¹ * (c - (b : Letter)))
  | .gronsfeld key, x => gronDec key 0 x
  | .generic _ _, x => x

/-- Letter value of a character (after uppercasing). -/
def charToLetter (c : Char) : Letter := ((c.toUpper.toNat - 65 : Nat) : Letter)

/-- Character of a letter value. -/
def letterToChar (x : Letter) : Char := Char.ofNat (65 + x.val)

/-- Text to letters: the provider uppercases and keeps alphabetic characters
only. -/
def toLetters (s : String) : List Letter := (s.data.filter Char.isAlpha).map charToLetter

/-- Letters back to uppercase text. -/
def fromLetters (l : List Letter) : String := ⟨l.map letterToChar⟩

/-- Modelled from the spec: string-level `encipher` of a cipher instance. -/
def encipherStr (inst : CipherInstance) (s : String) : String :=
  fromLetters (encL inst (toLetters s))

/-- Modelled from the spec: string-level `decipher` of a cipher instance. -/
def decipherStr (inst : CipherInstance) (s : String) : String :=
  fromLetters (decL inst (toLetters s))

/-- Model of Python's `str.strip()`. -/
def trimString (s : String) : String := ⟨trimChars s.data⟩

/-- Embedding of the Encipher/Decipher button handlers in `main`
(`src/pages/Classical Cipher.py`, lines 100-118): build the instance; on
failure report the error (`st.error`) and produce no result; on success run
the transform matching `mode` (`true` = Encipher) on the stripped text and
report the result (`st.success`).  The `world` argument models the Streamlit
UI message log, the only effect these handlers have. -/
def runPipeline (cipher_name : String) (user_inputs : List (String × PyVal))
    (mode : Bool) (text : String) (world : List String) :
    Option String × List String :=
  match safe_cipher_instance cipher_name user_inputs with
  | .error e => (Option.none, world ++ ["Error creating cipher instance: " ++ e])
  | .ok inst =>
      let r := if mode then encipherStr inst (trimString text)
               else decipherStr inst (trimString text)
      (some r, world ++ ["Result: " ++ r])

/-- Embedding of `pkcs7_pad` (`src/pages/Padding & Unpadding Text.py`,
lines 10-12); byte strings are lists of naturals. -/
def pkcs7_pad (data : List Nat) (block_size : Nat) : List Nat :=
  let pad_len := block_size - data.length % block_size
  data ++ List.replicate pad_len pad_len

/-- Embedding of `pkcs7_unpad` (`src/pages/Padding & Unpadding Text.py`,
lines 14-20): `data[-1]` on an empty input raises (IndexError), modelled as
an error; then the length check, the pad-bytes check, and the strip. -/
def pkcs7_unpad (data : List Nat) : Except String (List Nat) :=
  match data.getLast? with
  | Option.none => .error "index out of range"
  | some pad_len =>
      if pad_len < 1 ∨ pad_len > data.length then .error "Invalid padding length"
      else if data.drop (data.length - pad_len) ≠ List.replicate pad_len pad_len then
        .error "Invalid PKCS7 padding bytes"
      else .ok (data.take (data.length - pad_len))

/-! Helper lemmas. -/

/-- Mapping an inverse after a map cancels. -/
theorem map_inv_cancel (f g : Letter → Letter) (hfg : ∀ c, g (f c) = c) (x : List Letter) :
    (x.map f).map g = x := by
  rw [List.map_map]
  have hid : (g ∘ f) = id := funext hfg
  rw [hid, List.map_id]

/-- Subtracting the Gronsfeld keystream undoes adding it, from any start
position. -/
theorem gron_roundtrip (key : List Int) :
    ∀ (i : Nat) (x : List Letter), gronDec key i (gronEnc key i x) = x := by
  intro i x
  induction x generalizing i with
  | nil => rfl
  | cons c cs ih => simp [gronEnc, gronDec, ih]

/-- An integer coprime to 26 casts to a unit of the letter ring. -/
theorem affine_unit (a : Int) (h : Int.gcd a 26 = 1) : IsUnit ((a : Letter)) := by
  have h1 : Nat.Coprime a.natAbs 26 := h
  have h2 : IsUnit ((a.natAbs : Letter)) := (ZMod.isUnit_iff_coprime a.natAbs 26).mpr h1
  rcases Int.natAbs_eq a with he | he
  · rw [he, Int.cast_natCast]
    exact h2
  · rw [he, Int.cast_neg, Int.cast_natCast]
    exact h2.neg

/-- Every instance the provider's construction step returns deciphers what it
enciphered, over the full letter alphabet. -/
theorem roundtrip_of_construct (name : String) (ps : List (String × PyVal))
    (inst : CipherInstance) (h : construct name ps = .ok inst) :
    ∀ x : List Letter, decL inst (encL inst x) = x := by
  intro x
  unfold construct at h
  split_ifs at h
  · unfold constructCaesar at h
    split at h
    · rename_i k heq
      cases h
      exact map_inv_cancel _ _ (fun c => add_sub_cancel_right c _) x
    · exact Except.noConfusion h
  · cases h
    exact map_inv_cancel _ _ (fun c => add_sub_cancel_right c _) x
  · cases h
    exact map_inv_cancel _ _ (fun c => sub_sub_cancel 25 c) x
  · unfold constructAffine at h
    split at h
    · rename_i a b heqa heqb
      split_ifs at h with hg
      cases h
      have hu := affine_unit a hg
      refine map_inv_cancel _ _ (fun c => ?_) x
      rw [add_sub_cancel_right, ← mul_assoc, ZMod.inv_mul_of_unit _ hu, one_mul]
    · exact Except.noConfusion h
  · unfold constructGronsfeld at h
    split at h
    · rename_i key heq
      split_ifs at h
      cases h
      exact gron_roundtrip key 0 x
    · exact Except.noConfusion h
  · cases h
    rfl

/-- A nonempty replicate ends in its repeated element. -/
theorem replicate_getLast {α : Type} (x : α) :
    ∀ p : Nat, (List.replicate (p + 1) x).getLast? = some x := by
  intro p
  induction p with
  | zero => rfl
  | succ q ih =>
      rw [List.replicate_succ, List.replicate_succ, List.getLast?_cons_cons,
          ← List.replicate_succ]
      exact ih

/-- The keys `build_param_ui` produces are the declared keys whose toggle is
enabled, in declaration order. -/
theorem build_param_ui_keys (ps : List (String × PyVal)) (toggles : String → Bool)
    (texts : String → String) :
    (build_param_ui ps toggles texts).map Prod.fst = (ps.map Prod.fst).filter toggles := by
  induction ps with
  | nil => rfl
  | cons p rest ih =>
      by_cases h : toggles p.1
      · simp [build_param_ui, h, List.filter_cons, ih]
      · simp [build_param_ui, h, List.filter_cons, ih]

/-! Claim theorems. -/

/-- Claim C1: `parse_param` is total — in this embedding it is a plain
function into `PyVal`, never an error value — and it maps the empty string,
the literal string "None" and an actual null to the null value, "13" to the
integer 13, "[5, 4, 7, 9]" to the integer sequence 5, 4, 7, 9, and returns
any other string on which structured-literal interpretation fails unchanged
as a string. -/
theorem parse_param_total_spec :
    parse_param (.str "") = .null ∧
    parse_param (.str "None") = .null ∧
    parse_param .null = .null ∧
    parse_param (.str "13") = .int 13 ∧
    parse_param (.str "[5, 4, 7, 9]") = .list [5, 4, 7, 9] ∧
    ∀ s : String, litEval s = Option.none → s ≠ "None" → s ≠ "" →
      parse_param (.str s) = .str s := by
  refine ⟨by decide, by decide, by decide, by decide, by decide, ?_⟩
  intro s hfail hN hE
  unfold parse_param
  rw [if_neg]
  · simp [hfail]
  · simp [hN, hE]

/-- Witness for claim C1 at the spec's concrete malformed literal. -/
theorem parse_param_total_spec_witness :
    parse_param (.str "not a literal \x7b\x7b\x7b") = .str "not a literal \x7b\x7b\x7b" :=
  parse_param_total_spec.2.2.2.2.2 _ (by decide) (by decide) (by decide)

/-- Claim C2: every instance the instantiation step returns satisfies the
round-trip law — deciphering the encipherment of any text over the cipher
alphabet gives the text back — and in particular Caesar with shift 13
enciphers "HELLO" to "URYYB" and deciphers "URYYB" to "HELLO". -/
theorem cipher_roundtrip :
    (∀ name params inst, safe_cipher_instance name params = .ok inst →
        ∀ x : List Letter, decL inst (encL inst x) = x) ∧
    encipherStr (.caesar 13) "HELLO" = "URYYB" ∧
    decipherStr (.caesar 13) "URYYB" = "HELLO" := by
  refine ⟨?_, by decide, by decide⟩
  intro name params inst h x
  unfold safe_cipher_instance at h
  rcases hap : acceptedParamNames name with _ | accepted
  · rw [hap] at h
    exact Except.noConfusion h
  · rw [hap] at h
    exact roundtrip_of_construct name _ inst h x

/-- Witness for claim C2: the Caesar-13 instance built from the registry
defaults round-trips the letters of "HELLO" (7, 4, 11, 11, 14). -/
theorem cipher_roundtrip_witness :
    decL (.caesar 13) (encL (.caesar 13) [7, 4, 11, 11, 14]) = [7, 4, 11, 11, 14] :=
  cipher_roundtrip.1 "Caesar" [("key", PyVal.int 13)] (.caesar 13) rfl [7, 4, 11, 11, 14]

/-- Claim C3: instantiation silently drops unrecognized parameter keys — for
a known cipher, a parameter whose key is not among the accepted constructor
parameter names leaves the construction outcome exactly as if it were
absent. -/
theorem instantiation_drops_unknown_keys
    (name : String) (accepted : List String) (params : List (String × PyVal))
    (k : String) (v : PyVal)
    (hacc : acceptedParamNames name = some accepted)
    (hk : accepted.contains k = false) :
    safe_cipher_instance name ((k, v) :: params) = safe_cipher_instance name params := by
  unfold safe_cipher_instance
  rw [hacc]
  have hk' : k ∉ accepted := by simpa using hk
  simp [List.filter_cons, hk']

/-- Witness for claim C3: an extra "shift" key is ignored when building a
Caesar instance. -/
theorem instantiation_drops_unknown_keys_witness :
    safe_cipher_instance "Caesar" [("shift", PyVal.int 3), ("key", PyVal.int 13)] =
      safe_cipher_instance "Caesar" [("key", PyVal.int 13)] :=
  instantiation_drops_unknown_keys "Caesar" ["key"] [("key", PyVal.int 13)] "shift"
    (PyVal.int 3) rfl rfl

/-- Claim C4 counterexample: the Affine constructor's parameter names are
"a" (the multiplier) and "b" (the additive); keys named "multiplier" and
"additive" are not in the construction signature, so instantiation silently
drops them and succeeds with the defaults a = 5, b = 9 — it does not yield a
construction error as the claim states. -/
theorem affine_renamed_keys_dropped_not_error :
    safe_cipher_instance "Affine" [("multiplier", PyVal.int 2), ("additive", PyVal.int 9)] =
      .ok (.affine 5 9) := rfl

/-- Claim C4 amended: instantiating Affine with its actual parameter keys,
a = 2 (the multiplier) and b = 9 (the additive), fails at construction
because gcd(2, 26) = 2, the transform step is never reached, and the same
call with a = 5 succeeds. -/
theorem affine_construction_coprimality :
    safe_cipher_instance "Affine" [("a", PyVal.int 2), ("b", PyVal.int 9)] =
      .error "affine multiplier must be coprime to 26" ∧
    runPipeline "Affine" [("a", PyVal.int 2), ("b", PyVal.int 9)] true "HELLO" [] =
      (Option.none,
        ["Error creating cipher instance: affine multiplier must be coprime to 26"]) ∧
    safe_cipher_instance "Affine" [("a", PyVal.int 5), ("b", PyVal.int 9)] =
      .ok (.affine 5 9) :=
  ⟨rfl, rfl, rfl⟩

/-- Claim C5 counterexample: the registry does not use the parameter names
the claim states — Caesar's entry is keyed "key" rather than "shift",
Affine's entries are keyed "a" and "b" rather than "multiplier" and
"additive", and Gronsfeld's default is the literal string "[5, 4, 7, 9]"
rather than an integer sequence. -/
theorem catalog_claimed_entries_refuted :
    lookupCipher "Caesar" ≠ some [("shift", PyVal.int 13)] ∧
    lookupCipher "Affine" ≠ some [("multiplier", PyVal.int 5), ("additive", PyVal.int 9)] ∧
    lookupCipher "Gronsfeld" ≠ some [("key", PyVal.list [5, 4, 7, 9])] := by
  refine ⟨by decide, by decide, by decide⟩

/-- Claim C5 amended: the static catalog maps Caesar to the single parameter
"key" with default 13, Affine to "a" with default 5 and "b" with default 9,
Atbash to the empty parameter set, and Gronsfeld to "key" defaulting to the
literal string "[5, 4, 7, 9]", which the parsing step turns into the integer
sequence 5, 4, 7, 9. -/
theorem catalog_actual_entries :
    lookupCipher "Caesar" = some [("key", PyVal.int 13)] ∧
    lookupCipher "Affine" = some [("a", PyVal.int 5), ("b", PyVal.int 9)] ∧
    lookupCipher "Atbash" = some [] ∧
    lookupCipher "Gronsfeld" = some [("key", PyVal.str "[5, 4, 7, 9]")] ∧
    parse_param (PyVal.str "[5, 4, 7, 9]") = PyVal.list [5, 4, 7, 9] := by
  refine ⟨by decide, by decide, by decide, by decide, by decide⟩

/-- Claim C6: every registry entry that declares no parameters (Atbash and
Rot13) instantiates successfully from the empty parameter set; and Atbash
enciphers "HELLO" to "SVOOL". -/
theorem paramless_ciphers_instantiate (name : String)
    (h : (name, ([] : List (String × PyVal))) ∈ cipher_params) :
    (∃ inst, safe_cipher_instance name [] = .ok inst) ∧
    encipherStr .atbash "HELLO" = "SVOOL" := by
  refine ⟨?_, by decide⟩
  simp [cipher_params] at h
  rcases h with h | h
  · subst h
    exact ⟨.atbash, rfl⟩
  · subst h
    exact ⟨.rot13, rfl⟩

/-- Witness for claim C6 at the Atbash entry. -/
theorem paramless_ciphers_instantiate_witness :
    (∃ inst, safe_cipher_instance "Atbash" [] = .ok inst) ∧
    encipherStr .atbash "HELLO" = "SVOOL" :=
  paramless_ciphers_instantiate "Atbash" (by decide)

/-- Claim C7: the parameter set handed to construction contains exactly the
enabled parameters — its keys are the declared keys whose toggle is on, and
a parameter whose toggle is disabled never occurs in it, not even bound to a
null value. -/
theorem disabled_params_omitted (name : String) (ps : List (String × PyVal))
    (toggles : String → Bool) (texts : String → String)
    (_hname : lookupCipher name = some ps) :
    (build_param_ui ps toggles texts).map Prod.fst = (ps.map Prod.fst).filter toggles ∧
    ∀ p v, toggles p = false → (p, v) ∉ build_param_ui ps toggles texts := by
  refine ⟨build_param_ui_keys ps toggles texts, ?_⟩
  intro p v hp hmem
  have hmm : p ∈ (build_param_ui ps toggles texts).map Prod.fst :=
    List.mem_map_of_mem Prod.fst hmem
  rw [build_param_ui_keys] at hmm
  have hpt := List.of_mem_filter hmm
  rw [hp] at hpt
  exact Bool.noConfusion hpt

/-- Witness for claim C7: with Caesar's one declared parameter toggled off,
the parameter set handed to construction does not contain it. -/
theorem disabled_params_omitted_witness :
    ("key", PyVal.int 13) ∉
      build_param_ui [("key", PyVal.int 13)] (fun _ => false) (fun _ => "") :=
  (disabled_params_omitted "Caesar" [("key", PyVal.int 13)] (fun _ => false)
    (fun _ => "") rfl).2 "key" (PyVal.int 13) rfl

/-- Claim C8: the parse-instantiate-apply pipeline is deterministic and
shares no state between calls — its operation result does not depend on the
ambient UI state a call starts from, and re-running it with the same inputs,
even from the state the first run produced, yields the same result. -/
theorem pipeline_deterministic (name : String) (inputs : List (String × PyVal))
    (mode : Bool) (text : String) (w w' : List String) :
    (runPipeline name inputs mode text w).1 = (runPipeline name inputs mode text w').1 ∧
    (runPipeline name inputs mode text (runPipeline name inputs mode text w).2).1 =
      (runPipeline name inputs mode text w).1 := by
  unfold runPipeline
  cases safe_cipher_instance name inputs <;> simp

/-- Claim C10: instance construction never propagates an exception — for
every cipher name, known or not, and every parameter set it yields either a
constructed instance or an error value; and in the error case the handler
reports the construction error, produces no result text, and attempts no
transform (its outcome does not depend on the input text at all). -/
theorem construction_never_throws (name : String) (inputs : List (String × PyVal)) :
    (∃ inst, safe_cipher_instance name inputs = .ok inst) ∨
    (∃ e, safe_cipher_instance name inputs = .error e ∧
      ∀ mode t₁ t₂ w, runPipeline name inputs mode t₁ w =
          (Option.none, w ++ ["Error creating cipher instance: " ++ e]) ∧
        runPipeline name inputs mode t₁ w = runPipeline name inputs mode t₂ w) := by
  cases h : safe_cipher_instance name inputs with
  | ok inst => exact Or.inl ⟨inst, rfl⟩
  | error e =>
      refine Or.inr ⟨e, rfl, ?_⟩
      intro mode t₁ t₂ w
      unfold runPipeline
      rw [h]
      exact ⟨rfl, rfl⟩

/-- Claim C9: PKCS7 padding round-trips — unpadding the padding of any byte
string returns it — and the padded string's length is a positive multiple of
the block size, strictly greater than the original length. -/
theorem pkcs7_roundtrip (data : List Nat) (n : Nat) (h1 : 1 ≤ n) (_h2 : n ≤ 255) :
    pkcs7_unpad (pkcs7_pad data n) = .ok data ∧
    (∃ k, 0 < k ∧ (pkcs7_pad data n).length = n * k) ∧
    data.length < (pkcs7_pad data n).length := by
  have hmod : data.length % n < n := Nat.mod_lt _ h1
  have hp1 : 0 < n - data.length % n := by omega
  obtain ⟨q, hq⟩ : ∃ q, n - data.length % n = q + 1 := ⟨n - data.length % n - 1, by omega⟩
  have hpad : pkcs7_pad data n = data ++ List.replicate (q + 1) (q + 1) := by
    unfold pkcs7_pad
    rw [hq]
  have hlen : (pkcs7_pad data n).length = data.length + (q + 1) := by
    rw [hpad]
    simp
  refine ⟨?_, ⟨data.length / n + 1, Nat.succ_pos _, ?_⟩, by omega⟩
  · rw [hpad]
    unfold pkcs7_unpad
    rw [List.getLast?_append_of_ne_nil _ (by simp), replicate_getLast]
    have hL : (data ++ List.replicate (q + 1) (q + 1)).length = data.length + (q + 1) := by
      simp
    have hdrop : List.drop ((data ++ List.replicate (q + 1) (q + 1)).length - (q + 1))
        (data ++ List.replicate (q + 1) (q + 1)) = List.replicate (q + 1) (q + 1) := by
      rw [hL, Nat.add_sub_cancel]
      exact List.drop_left data _
    have htake : List.take ((data ++ List.replicate (q + 1) (q + 1)).length - (q + 1))
        (data ++ List.replicate (q + 1) (q + 1)) = data := by
      rw [hL, Nat.add_sub_cancel]
      exact List.take_left data _
    dsimp only
    rw [if_neg (by rw [hL]; omega), if_neg (not_not_intro hdrop), htake]
  · rw [hlen, Nat.mul_succ]
    have hdm := Nat.div_add_mod data.length n
    generalize hT : n * (data.length / n) = T at hdm ⊢
    omega

/-- Witness for claim C9 on the bytes of "Hello" with block size 16. -/
theorem pkcs7_roundtrip_witness :
    pkcs7_unpad (pkcs7_pad [72, 101, 108, 108, 111] 16) = .ok [72, 101, 108, 108, 111] :=
  (pkcs7_roundtrip [72, 101, 108, 108, 111] 16 (by decide) (by decide)).1

end A7sPrime
